import Mathlib

/-!
Verification development for viadot's Hubspot extraction task
(`viadot/tasks/hubspot.py`) and the Mindful connector's time-window
resolution (`viadot/sources/mindful.py`).

Python values flowing through the extraction code (JSON-decoded response
bodies, filter leaves) are embedded as the inductive `PyVal`; Python
exceptions raised by the modelled operations are embedded as `PyErr`
through `Except`.
-/

namespace Viadot

/-- Python exception classes that the modelled code can raise.
`validationError` is viadot's own `viadot.exceptions.ValidationError`
class; the others are Python built-ins. -/
inductive PyErr where
  | keyError
  | typeError
  | valueError
  | indexError
  | attributeError
  | validationError
deriving DecidableEq, Repr

/-- A JSON-like Python value: the payloads the Hubspot task manipulates. -/
inductive PyVal where
  | none
  | bool (b : Bool)
  | int (n : Int)
  | str (s : String)
  | list (xs : List PyVal)
  | dict (kvs : List (String × PyVal))

/-- A Python dict as the extraction code sees a decoded response body:
an insertion-ordered association list. -/
abbrev PyDict := List (String × PyVal)

/-- First-occurrence lookup, matching Python dict subscript semantics
(a dict holds each key once; an association list models it by its first
occurrence). -/
def lookupFirst : PyDict → String → Option PyVal
  | [], _ => Option.none
  | (k, v) :: rest, key => if k = key then Option.some v else lookupFirst rest key

/-- Key string `paging` used by `get_offset_from_response` and `run`. -/
def pagingKey : String := "paging"

/-- Key string `next` used by `get_offset_from_response` and `run`. -/
def nextKey : String := "next"

/-- Key string `after` used by `get_offset_from_response` and `run`. -/
def afterKey : String := "after"

/-- Key string `offset` used by `get_offset_from_response`. -/
def offsetKey : String := "offset"

/-- Key string `results` used by `run`. -/
def resultsKey : String := "results"

/-- Python subscript `v[key]` on a decoded JSON value: a missing key on a
dict raises `KeyError`; subscripting a non-dict with a string key raises
`TypeError`. -/
def getItem (v : PyVal) (key : String) : Except PyErr PyVal :=
  match v with
  | PyVal.dict kvs =>
    match lookupFirst kvs key with
    | Option.some x => Except.ok x
    | Option.none => Except.error PyErr.keyError
  | _ => Except.error PyErr.typeError

namespace HubspotToDF

/-- Gregorian leap-year test, as Python's `datetime` calendar uses. -/
def isLeapYear (y : Nat) : Bool :=
  (y % 4 == 0 && y % 100 != 0) || y % 400 == 0

/-- Length of month `m` in year `y` of the proleptic Gregorian calendar. -/
def daysInMonth (y m : Nat) : Nat :=
  if m == 2 then (if isLeapYear y then 29 else 28)
  else if m == 4 || m == 6 || m == 9 || m == 11 then 30
  else 31

/-- Numeric value of a decimal digit character. -/
def digitVal (c : Char) : Nat := c.toNat - 48

/-- Embedding of `datetime.date.fromisoformat` as the source's Python
(3.10 and earlier) implements it: the string must be exactly the ten
characters `YYYY-MM-DD`, and the fields must form a valid calendar date
(year 1..9999, month 1..12, day within the month); anything else raises
`ValueError` (or `TypeError` for a non-string argument), which the caller
in `format_filters` swallows, so a plain `Option` suffices here. -/
def date_fromisoformat (s : String) : Option (Nat × Nat × Nat) :=
  match s.toList with
  | [y1, y2, y3, y4, s1, m1, m2, s2, d1, d2] =>
    if y1.isDigit && y2.isDigit && y3.isDigit && y4.isDigit && s1 == '-'
        && m1.isDigit && m2.isDigit && s2 == '-' && d1.isDigit && d2.isDigit then
      let y := ((digitVal y1 * 10 + digitVal y2) * 10 + digitVal y3) * 10 + digitVal y4
      let m := digitVal m1 * 10 + digitVal m2
      let d := digitVal d1 * 10 + digitVal d2
      if 1 ≤ y && 1 ≤ m && m ≤ 12 && 1 ≤ d && d ≤ daysInMonth y m then
        Option.some (y, m, d)
      else Option.none
    else Option.none
  | _ => Option.none

/-- Days from 1970-01-01 to the given proleptic-Gregorian date (negative
for earlier dates); the day count underlying Python's conversion of a
date to a Unix timestamp. Uses the standard civil-from-days era/year
decomposition; `y ≥ 1` as `date_fromisoformat` guarantees. -/
def daysFromCivil (y m d : Nat) : Int :=
  let yy := if m ≤ 2 then y - 1 else y
  let era := yy / 400
  let yoe := yy % 400
  let mp := (m + 9) % 12
  let doy := (153 * mp + 2) / 5 + (d - 1)
  let doe := yoe * 365 + yoe / 4 - yoe / 100 + doy
  ((era * 146097 + doe : Nat) : Int) - 719468

/-- Embedding of `HubspotToDF.date_to_unixtimestamp` (hubspot.py lines
44-53). The source parses `date` with `strptime("%Y-%m-%d")` into a naive
midnight datetime and converts it with `datetime.timestamp`, which
interprets a naive datetime in the host's local timezone; `tzOffset` is
that zone's offset east of UTC in seconds, so local midnight of the date
is `days * 86400 - tzOffset` in Unix seconds, multiplied by 1000 and
truncated to int (exact here, as the float is integral and below 2^53).
`format_filters` only calls this on strings already accepted by
`date.fromisoformat`, on which `strptime` parses the same year, month and
day, so that parser is reused; on other strings both raise and the caller
swallows the error, modelled by `Option.none`. -/
def date_to_unixtimestamp (tzOffset : Int) (s : String) : Option Int :=
  match date_fromisoformat s with
  | Option.some (y, m, d) => Option.some ((daysFromCivil y m d * 86400 - tzOffset) * 1000)
  | Option.none => Option.none

/-- One predicate dict of a filter group: field name to leaf value. -/
abbrev FilterPred := List (String × PyVal)

/-- One filter group as `format_filters` traverses it: the list of
predicate dicts stored under the group's `filters` entry. -/
abbrev FilterGroup := List FilterPred

/-- The whole filter payload: a list of filter groups. -/
abbrev FilterTree := List FilterGroup

/-- Effect of the `try` block in `format_filters` (lines 69-77) on one
leaf value: when `date.fromisoformat` accepts the leaf, the leaf is
replaced by `date_to_unixtimestamp` of it; every raised error
(`ValueError` on a non-date string, `TypeError` on a non-string) is
swallowed by the bare `except` and the leaf stays unchanged. -/
def convertLeaf (tzOffset : Int) (v : PyVal) : PyVal :=
  match v with
  | PyVal.str s =>
    match date_to_unixtimestamp tzOffset s with
    | Option.some ms => PyVal.int ms
    | Option.none => PyVal.str s
  | _ => v

/-- Inner loop of `format_filters` over one predicate dict: iterating the
dict's keys and writing each converted value back is a map over the
values. -/
def formatPred (tzOffset : Int) (p : FilterPred) : FilterPred :=
  p.map (fun kv => (kv.fst, convertLeaf tzOffset kv.snd))

/-- Middle loop of `format_filters` over `item["filters"]`, by index. -/
def formatGroup (tzOffset : Int) (g : FilterGroup) : FilterGroup :=
  g.map (formatPred tzOffset)

/-- Embedding of `HubspotToDF.format_filters` (hubspot.py lines 55-79):
walk every group, every predicate dict and every leaf, converting the
leaves that parse as ISO calendar dates and leaving all others as they
are. -/
def format_filters (tzOffset : Int) (t : FilterTree) : FilterTree :=
  t.map (formatGroup tzOffset)

/-- The tree object the caller passed to `format_filters`, observed after
the call returns. The source writes every converted leaf back into the
parameter `filters` itself (`filters[filters.index(item)][iterator][subitem]
= date_after_format`, lines 73-75) and returns that same object, so the
caller-held tree and the returned tree are one object and coincide. -/
def format_filters_caller_tree (tzOffset : Int) (t : FilterTree) : FilterTree :=
  format_filters tzOffset t

/-- Embedding of `HubspotToDF.get_offset_from_response` (hubspot.py lines
81-101): if the body has a `paging` key, read `paging["next"]["after"]`
(propagating `KeyError`/`TypeError` when that shape is absent) and return
the after-style pair; else if it has an `offset` key return the
offset-style pair; else return `(None, None)`. -/
def get_offset_from_response (resp : PyDict) : Except PyErr (PyVal × PyVal) :=
  match lookupFirst resp pagingKey with
  | Option.some p =>
    match getItem p nextKey with
    | Except.error e => Except.error e
    | Except.ok nx =>
      match getItem nx afterKey with
      | Except.error e => Except.error e
      | Except.ok af => Except.ok (PyVal.str afterKey, af)
  | Option.none =>
    match lookupFirst resp offsetKey with
    | Option.some v => Except.ok (PyVal.str offsetKey, v)
    | Option.none => Except.ok (PyVal.none, PyVal.none)

/-- The `paging["next"]["after"]` access of `get_offset_from_response`
and of `run`'s POST loop, in isolation. -/
def pagingAfter (p : PyVal) : Except PyErr PyVal :=
  match getItem p nextKey with
  | Except.error e => Except.error e
  | Except.ok nx => getItem nx afterKey

/-- Python truthiness, as `run`'s `while offset_value and ...` tests it. -/
def pyTruthy (v : PyVal) : Bool :=
  match v with
  | PyVal.none => false
  | PyVal.bool b => b
  | PyVal.int n => n != 0
  | PyVal.str s => !s.isEmpty
  | PyVal.list xs => !xs.isEmpty
  | PyVal.dict kvs => !kvs.isEmpty

/-- Python `len(v)`: defined on sequences and mappings, `TypeError`
otherwise. -/
def pyLen (v : PyVal) : Except PyErr Nat :=
  match v with
  | PyVal.str s => Except.ok s.length
  | PyVal.list xs => Except.ok xs.length
  | PyVal.dict kvs => Except.ok kvs.length
  | _ => Except.error PyErr.typeError

/-- Python `len(dataset) < nrows` as `run`'s loop conditions evaluate it:
comparing an int with `None` (the default of the `nrows` parameter)
raises `TypeError`. -/
def pyLtNrows (n : Nat) (nrows : Option Int) : Except PyErr Bool :=
  match nrows with
  | Option.none => Except.error PyErr.typeError
  | Option.some m => Except.ok (decide ((n : Int) < m))

/-- The elements Python iterates over a value, as `list.extend` consumes
its argument: a list yields its elements, a string its characters, a dict
its keys; the remaining values are not iterable and raise `TypeError`. -/
def iterElems (v : PyVal) : Except PyErr (List PyVal) :=
  match v with
  | PyVal.list xs => Except.ok xs
  | PyVal.str s => Except.ok (s.toList.map (fun c => PyVal.str (String.mk [c])))
  | PyVal.dict kvs => Except.ok (kvs.map (fun kv => PyVal.str kv.fst))
  | _ => Except.error PyErr.typeError

/-- Python `dataset.extend(v)`: `dataset` must be a list (anything else
lacks the method, `AttributeError`) and `v` must be iterable. -/
def pyExtend (dataset : PyVal) (v : PyVal) : Except PyErr PyVal :=
  match dataset with
  | PyVal.list xs =>
    match iterElems v with
    | Except.error e => Except.error e
    | Except.ok ys => Except.ok (PyVal.list (xs ++ ys))
  | _ => Except.error PyErr.attributeError

/-- Python `partition[list(partition.keys())[0]]` from `run`'s GET branch
(lines 139 and 153): the value stored under the response dict's first
key; an empty dict raises `IndexError`. -/
def pyFirstVal (d : PyDict) : Except PyErr PyVal :=
  match d with
  | [] => Except.error PyErr.indexError
  | (_, v) :: _ => Except.ok v

/-- Embedding of `pandas.json_normalize` as `to_df` applies it (line 42):
a list of records becomes one table row per element, a single mapping
becomes a one-row table, and the scalar values the task never feeds it
are rejected. Only row count and order matter to the claims, so a row is
kept as the original record. -/
def to_df (v : PyVal) : Except PyErr (List PyVal) :=
  match v with
  | PyVal.list xs => Except.ok xs
  | PyVal.dict kvs => Except.ok [PyVal.dict kvs]
  | _ => Except.error PyErr.typeError

/-- Python `rows[:nrows]` from line 158: `None` keeps everything, a
non-negative bound keeps the first `nrows` rows, and a negative bound
drops that many rows from the end. -/
def pySlice (rows : List PyVal) (nrows : Option Int) : List PyVal :=
  match nrows with
  | Option.none => rows
  | Option.some m => if 0 ≤ m then rows.take m.toNat else rows.take (rows.length - m.natAbs)

/-- Line 158 of `run`: `df = self.to_df(full_dataset)[:nrows]`, paired
with the number of page fetches the call issued so the claims about
fetch counts can speak about it. -/
def finalize (dataset : PyVal) (nrows : Option Int) (fetches : Nat) :
    Except PyErr (List PyVal × Nat) :=
  match to_df dataset with
  | Except.error e => Except.error e
  | Except.ok rows => Except.ok (pySlice rows nrows, fetches)

/-- Loop state of `run`'s GET branch (lines 138-156): the accumulated
`full_dataset`, the current `offset_type` and `offset_value` variables,
and how many fetches have been issued so far (the next fetch reads page
`fetches` of the response stream). -/
structure GetState where
  dataset : PyVal
  offsetType : PyVal
  offsetValue : PyVal
  fetches : Nat

/-- Lines 138-142 of `run`: the initial GET fetch, `full_dataset =
partition[list(partition.keys())[0]]`, and the first cursor detection. -/
def getInit (stream : Nat → PyDict) : Except PyErr GetState :=
  let partition := stream 0
  match pyFirstVal partition with
  | Except.error e => Except.error e
  | Except.ok ds =>
    match get_offset_from_response partition with
    | Except.error e => Except.error e
    | Except.ok (ot, ov) => Except.ok ⟨ds, ot, ov, 1⟩

/-- The GET loop condition `offset_value and len(full_dataset) < nrows`
(line 144), with Python's short-circuit: a falsy cursor skips the length
comparison entirely, so `nrows = None` only raises once a cursor is
present. -/
def getLoopCond (st : GetState) (nrows : Option Int) : Except PyErr Bool :=
  if pyTruthy st.offsetValue then
    match pyLen st.dataset with
    | Except.error e => Except.error e
    | Except.ok n => pyLtNrows n nrows
  else Except.ok false

/-- One GET loop body (lines 145-156): fetch the next page, extend
`full_dataset` with the new partition's first value, and re-run cursor
detection on the new partition. -/
def getStep (stream : Nat → PyDict) (st : GetState) : Except PyErr GetState :=
  let partition := stream st.fetches
  match pyFirstVal partition with
  | Except.error e => Except.error e
  | Except.ok ext =>
    match pyExtend st.dataset ext with
    | Except.error e => Except.error e
    | Except.ok ds =>
      match get_offset_from_response partition with
      | Except.error e => Except.error e
      | Except.ok (ot, ov) => Except.ok ⟨ds, ot, ov, st.fetches + 1⟩

/-- The GET `while` loop of `run`, indexed by fuel: `Option.none` means
the loop was still running when the fuel ran out, `Option.some` carries
the Python outcome (a raised error or the state at normal exit). -/
def getLoop (stream : Nat → PyDict) (nrows : Option Int) :
    Nat → GetState → Option (Except PyErr GetState)
  | 0, _ => Option.none
  | fuel + 1, st =>
    match getLoopCond st nrows with
    | Except.error e => Option.some (Except.error e)
    | Except.ok false => Option.some (Except.ok st)
    | Except.ok true =>
      match getStep stream st with
      | Except.error e => Option.some (Except.error e)
      | Except.ok st2 => getLoop stream nrows fuel st2

/-- Loop state of `run`'s POST branch (lines 119-133): the accumulated
`full_dataset`, the current `partition` (the POST condition re-inspects
it for a `paging` key), and the number of fetches issued. -/
structure PostState where
  dataset : PyVal
  partition : PyDict
  fetches : Nat

/-- Lines 124-125 of `run`: the initial POST fetch and `full_dataset =
partition["results"]` (a missing `results` key raises `KeyError`). -/
def postInit (stream : Nat → PyDict) : Except PyErr PostState :=
  let partition := stream 0
  match lookupFirst partition resultsKey with
  | Option.none => Except.error PyErr.keyError
  | Option.some ds => Except.ok ⟨ds, partition, 1⟩

/-- The POST loop condition `"paging" in partition.keys() and
len(full_dataset) < nrows` (line 127), with Python's short-circuit. -/
def postLoopCond (st : PostState) (nrows : Option Int) : Except PyErr Bool :=
  if (lookupFirst st.partition pagingKey).isSome then
    match pyLen st.dataset with
    | Except.error e => Except.error e
    | Except.ok n => pyLtNrows n nrows
  else Except.ok false

/-- One POST loop body (lines 128-133): read
`partition["paging"]["next"]["after"]` into the request body, fetch the
next page, and extend `full_dataset` with the new `partition["results"]`
(a missing key raises `KeyError`). -/
def postStep (stream : Nat → PyDict) (st : PostState) : Except PyErr PostState :=
  match lookupFirst st.partition pagingKey with
  | Option.none => Except.error PyErr.keyError
  | Option.some p =>
    match pagingAfter p with
    | Except.error e => Except.error e
    | Except.ok _ =>
      let partition := stream st.fetches
      match lookupFirst partition resultsKey with
      | Option.none => Except.error PyErr.keyError
      | Option.some ext =>
        match pyExtend st.dataset ext with
        | Except.error e => Except.error e
        | Except.ok ds => Except.ok ⟨ds, partition, st.fetches + 1⟩

/-- The POST `while` loop of `run`, indexed by fuel like `getLoop`. -/
def postLoop (stream : Nat → PyDict) (nrows : Option Int) :
    Nat → PostState → Option (Except PyErr PostState)
  | 0, _ => Option.none
  | fuel + 1, st =>
    match postLoopCond st nrows with
    | Except.error e => Option.some (Except.error e)
    | Except.ok false => Option.some (Except.ok st)
    | Except.ok true =>
      match postStep stream st with
      | Except.error e => Option.some (Except.error e)
      | Except.ok st2 => postLoop stream nrows fuel st2

/-- Embedding of `HubspotToDF.run` (hubspot.py lines 103-160). The
transport collaborator (`Hubspot.to_json` with the URLs and bodies the
code builds) is abstracted as `stream`, the decoded body of the n-th
fetch this call issues; `tzOffset` is the host timezone feeding
`format_filters`; `fuel` bounds the number of loop iterations the
embedding unfolds, `Option.none` meaning the source loop was still
running. A non-empty `filters` payload selects the POST branch (line
119's truthiness test), whose request body is built from
`format_filters tzOffset filters`; an empty one selects the GET branch. -/
def run (tzOffset : Int) (filters : FilterTree) (nrows : Option Int)
    (stream : Nat → PyDict) (fuel : Nat) : Option (Except PyErr (List PyVal × Nat)) :=
  if filters.isEmpty then
    match getInit stream with
    | Except.error e => Option.some (Except.error e)
    | Except.ok st0 =>
      match getLoop stream nrows fuel st0 with
      | Option.none => Option.none
      | Option.some (Except.error e) => Option.some (Except.error e)
      | Option.some (Except.ok st) => Option.some (finalize st.dataset nrows st.fetches)
  else
    let _formatted := format_filters tzOffset filters
    match postInit stream with
    | Except.error e => Option.some (Except.error e)
    | Except.ok st0 =>
      match postLoop stream nrows fuel st0 with
      | Option.none => Option.none
      | Option.some (Except.error e) => Option.some (Except.error e)
      | Option.some (Except.ok st) => Option.some (finalize st.dataset nrows st.fetches)

/-- The leaf (if any) sitting at group index `gi`, predicate index `pi`
and field index `li` of a filter tree. -/
def getLeaf (t : FilterTree) (gi pi li : Nat) : Option (String × PyVal) :=
  (t[gi]?.bind fun g => g[pi]?).bind fun p => p[li]?

/-- A leaf which `date.fromisoformat` accepts, i.e. one the `try` block
of `format_filters` rewrites. -/
def isDateLeaf (v : PyVal) : Bool :=
  match v with
  | PyVal.str s => (date_fromisoformat s).isSome
  | _ => false

/-- A leaf which the `try` block of `format_filters` leaves unchanged:
a non-string, or a string `date.fromisoformat` rejects. -/
def notDateLeaf (v : PyVal) : Bool :=
  match v with
  | PyVal.str s => (date_fromisoformat s).isNone
  | _ => true

/-- Whether some leaf of the filter tree parses as an ISO calendar
date. -/
def hasDateLeaf (t : FilterTree) : Bool :=
  t.any (fun g => g.any (fun p => p.any (fun kv => isDateLeaf kv.snd)))

/-- A first-page GET response that `run` can process: its first key holds
a result list, and its pagination shape is one `get_offset_from_response`
accepts without raising (lines 139-142 evaluate both before the loop). -/
def firstPageOkGet (d : PyDict) : Prop :=
  (∃ xs, pyFirstVal d = Except.ok (PyVal.list xs))
  ∧ ∃ pr, get_offset_from_response d = Except.ok pr

/-- A first-page POST response that `run` can process: its `results` key
holds a list (line 125 reads it; the line-127 condition takes its
length). -/
def firstPageOkPost (d : PyDict) : Prop :=
  ∃ xs, lookupFirst d resultsKey = Option.some (PyVal.list xs)

/-- A misbehaving response stream: every page reports a non-None (and
truthy) offset cursor over an empty result list. -/
def emptyPagesStream : Nat → PyDict :=
  fun _ => [(resultsKey, PyVal.list []), (offsetKey, PyVal.int 1)]

/-- A response stream whose pages carry one record and no cursor. -/
def noCursorStream : Nat → PyDict :=
  fun _ => [(resultsKey, PyVal.list [PyVal.dict []])]

/-- A first page carrying an offset cursor next to its result list. -/
def offsetFirstPage : PyDict :=
  [(resultsKey, PyVal.list []), (offsetKey, PyVal.int 25)]

/-- Sample field name for concrete filter trees. -/
def sampleField : String := "createdate"

/-- A sample ISO date string; its midnight UTC is 86400 Unix seconds. -/
def sampleDateStr : String := "1970-01-02"

/-- A sample ISO date string; its midnight UTC is 1680739200 Unix
seconds. -/
def utcSampleDateStr : String := "2023-04-06"

/-- Sample cursor token for concrete response bodies. -/
def sampleToken : String := "tok"

/-- A one-group filter tree with a date leaf and an integer leaf. -/
def sampleTree : FilterTree :=
  [[[(sampleField, PyVal.str sampleDateStr), (sampleField, PyVal.int 42)]]]

end HubspotToDF

namespace Mindful

/-- Embedding of the time-window resolution in `Mindful.__init__`
(mindful.py lines 63-84). Timestamps are Unix seconds; `Option.none`
models a `start_date`/`end_date` argument that is absent or not a
`datetime` (the `isinstance` tests treat both alike); `now` is
`datetime.now()` and `timedelta(days=date_interval)` is `date_interval *
86400` seconds. When both bounds are datetimes and `start_date >=
end_date`, line 79 raises the built-in `ValueError`; no request is issued
anywhere in `__init__`. -/
def resolve_window (now : Int) (start_date end_date : Option Int)
    (date_interval : Int) : Except PyErr (Int × Int) :=
  match start_date with
  | Option.none => Except.ok (now, now + date_interval * 86400)
  | Option.some s =>
    match end_date with
    | Option.none => Except.ok (s, s + date_interval * 86400)
    | Option.some e =>
      if e ≤ s then Except.error PyErr.valueError
      else Except.ok (s, e)

end Mindful

namespace HubspotToDF

/-- C1: with `nrows = None` and a first GET response that carries a
non-None (truthy) offset cursor, `run` does not drain pages: its loop
condition evaluates `len(full_dataset) < None` and raises `TypeError`,
so the whole call fails instead of returning the accumulated rows. -/
theorem C1_nrows_none_with_cursor_raises_typeerror :
    run 0 [] Option.none (fun _ => offsetFirstPage) 5
      = Option.some (Except.error PyErr.typeError) := rfl

/-- On `emptyPagesStream` the GET loop state is reproduced by every
iteration (only the fetch counter advances), so no fuel suffices for the
loop to finish. -/
theorem getLoop_emptyPages_none :
    ∀ fuel k : Nat,
      getLoop emptyPagesStream (Option.some 5) fuel
        ⟨PyVal.list [], PyVal.str offsetKey, PyVal.int 1, k⟩ = Option.none := by
  intro fuel
  induction fuel with
  | zero => intro k; rfl
  | succ fuel ih => intro k; exact ih (k + 1)

/-- On `emptyPagesStream` with a row budget of 5, `run` is still inside
its fetch loop after any number of iterations. -/
theorem run_emptyPages_none (fuel : Nat) :
    run 0 [] (Option.some 5) emptyPagesStream fuel = Option.none := by
  show (match getLoop emptyPagesStream (Option.some 5) fuel
      ⟨PyVal.list [], PyVal.str offsetKey, PyVal.int 1, 1⟩ with
    | Option.none => Option.none
    | Option.some (Except.error e) => Option.some (Except.error e)
    | Option.some (Except.ok st) =>
      Option.some (finalize st.dataset (Option.some 5) st.fetches))
    = Option.none
  rw [getLoop_emptyPages_none fuel 1]

/-- C2 counterexample: with a row budget of 5 and every response
reporting a non-None offset cursor over an empty result list, `run` is
still inside its fetch loop — with no error surfaced — after 1000
iterations, past any plausible ceiling (the amended theorem extends this
to every number of iterations). -/
theorem C2_counterexample_unbounded_loop :
    run 0 [] (Option.some 5) emptyPagesStream 1000 = Option.none :=
  run_emptyPages_none 1000

/-- C2 amended: `run`'s fetch loops enforce no maximum iteration count.
A loop run that exits normally does so only because the loop's own
condition — cursor truthiness (GET), or `paging`-key presence (POST),
combined with the row budget — became false; and on a stream of
non-None cursors over empty result lists, `run` is still looping after
every number of iterations, with no independent page-count ceiling and
no error for exceeding one. -/
theorem C2_loops_exit_only_when_cond_false :
    (∀ (stream : Nat → PyDict) (nrows : Option Int) (fuel : Nat) (st st' : GetState),
      getLoop stream nrows fuel st = Option.some (Except.ok st') →
      getLoopCond st' nrows = Except.ok false)
    ∧ (∀ (stream : Nat → PyDict) (nrows : Option Int) (fuel : Nat) (st st' : PostState),
      postLoop stream nrows fuel st = Option.some (Except.ok st') →
      postLoopCond st' nrows = Except.ok false)
    ∧ (∀ fuel : Nat,
      run 0 [] (Option.some 5) emptyPagesStream fuel = Option.none) := by
  refine ⟨?_, ?_, run_emptyPages_none⟩
  · intro stream nrows fuel
    induction fuel with
    | zero => intro st st' h; simp [getLoop] at h
    | succ fuel ih =>
      intro st st' h
      unfold getLoop at h
      cases hc : getLoopCond st nrows with
      | error e => rw [hc] at h; simp at h
      | ok b =>
        cases b with
        | false =>
          rw [hc] at h
          simp at h
          rw [← h]
          exact hc
        | true =>
          rw [hc] at h
          cases hs : getStep stream st with
          | error e => rw [hs] at h; simp at h
          | ok st2 =>
            rw [hs] at h
            exact ih st2 st' h
  · intro stream nrows fuel
    induction fuel with
    | zero => intro st st' h; simp [postLoop] at h
    | succ fuel ih =>
      intro st st' h
      unfold postLoop at h
      cases hc : postLoopCond st nrows with
      | error e => rw [hc] at h; simp at h
      | ok b =>
        cases b with
        | false =>
          rw [hc] at h
          simp at h
          rw [← h]
          exact hc
        | true =>
          rw [hc] at h
          cases hs : postStep stream st with
          | error e => rw [hs] at h; simp at h
          | ok st2 =>
            rw [hs] at h
            exact ih st2 st' h

/-- C2 witness: a loop run that does exit (here the page reports no
cursor) exits with the loop condition false. -/
theorem C2_loops_exit_witness :
    getLoopCond ⟨PyVal.list [], PyVal.none, PyVal.none, 1⟩ (Option.some 5)
      = Except.ok false :=
  C2_loops_exit_only_when_cond_false.1 noCursorStream (Option.some 5) 1
    ⟨PyVal.list [], PyVal.none, PyVal.none, 1⟩
    ⟨PyVal.list [], PyVal.none, PyVal.none, 1⟩ rfl

/-- C9: with `nrows = 0`, `run` issues exactly one page fetch and
returns a zero-row table, on every first-page response the chosen branch
can process (GET: the response's first key holds the record list and its
pagination shape is one the detector accepts; POST: `results` holds a
list) and for every filter payload: the loop condition `len(...) < 0` is
false on entry, and the final `[:0]` slice empties the page. -/
theorem C9_zero_row_limit (tzOffset : Int) (stream : Nat → PyDict) (fuel : Nat) :
    (∀ filters : FilterTree, filters.isEmpty = true → firstPageOkGet (stream 0) →
      run tzOffset filters (Option.some 0) stream (fuel + 1)
        = Option.some (Except.ok ([], 1)))
    ∧ (∀ filters : FilterTree, filters.isEmpty = false → firstPageOkPost (stream 0) →
      run tzOffset filters (Option.some 0) stream (fuel + 1)
        = Option.some (Except.ok ([], 1))) := by
  constructor
  · intro filters he hok
    obtain ⟨⟨xs, hds⟩, ⟨⟨ot, ov⟩, ho⟩⟩ := hok
    have hinit : getInit stream = Except.ok ⟨PyVal.list xs, ot, ov, 1⟩ := by
      simp [getInit, hds, ho]
    have hcond : getLoopCond ⟨PyVal.list xs, ot, ov, 1⟩ (Option.some 0)
        = Except.ok false := by
      unfold getLoopCond
      by_cases ht : pyTruthy ov
      · rw [if_pos ht]
        simp only [pyLen, pyLtNrows]
        simp only [Except.ok.injEq, decide_eq_false_iff_not]
        omega
      · rw [if_neg ht]
    have hloop : getLoop stream (Option.some 0) (fuel + 1) ⟨PyVal.list xs, ot, ov, 1⟩
        = Option.some (Except.ok ⟨PyVal.list xs, ot, ov, 1⟩) := by
      unfold getLoop
      rw [hcond]
    simp [run, he, hinit, hloop, finalize, to_df, pySlice]
  · intro filters he hok
    obtain ⟨xs, hds⟩ := hok
    have hinit : postInit stream = Except.ok ⟨PyVal.list xs, stream 0, 1⟩ := by
      simp [postInit, hds]
    have hcond : postLoopCond ⟨PyVal.list xs, stream 0, 1⟩ (Option.some 0)
        = Except.ok false := by
      unfold postLoopCond
      by_cases hm : (lookupFirst (stream 0) pagingKey).isSome
      · rw [if_pos hm]
        simp only [pyLen, pyLtNrows]
        simp only [Except.ok.injEq, decide_eq_false_iff_not]
        omega
      · rw [if_neg hm]
    have hloop : postLoop stream (Option.some 0) (fuel + 1) ⟨PyVal.list xs, stream 0, 1⟩
        = Option.some (Except.ok ⟨PyVal.list xs, stream 0, 1⟩) := by
      unfold postLoop
      rw [hcond]
    simp [run, he, hinit, hloop, finalize, to_df, pySlice]

/-- C9 witness: a concrete GET run with `nrows = 0` issues one fetch and
returns no rows. -/
theorem C9_zero_row_limit_witness :
    run 0 [] (Option.some 0) noCursorStream 1 = Option.some (Except.ok ([], 1)) :=
  (C9_zero_row_limit 0 noCursorStream 0).1 [] rfl
    ⟨⟨[PyVal.dict []], rfl⟩, ⟨(PyVal.none, PyVal.none), rfl⟩⟩

/-- C10: `get_offset_from_response` is partial at its public interface.
First, whenever the body holds a `paging` key whose value lacks the
`next`/`after` shape, the access `paging["next"]["after"]` raises
(`KeyError` or `TypeError`) and that error propagates out in place of any
cursor. Second, the None cursor `(None, None)` comes back only when the
body has neither a `paging` nor an `offset` key. -/
theorem C10_detector_raises_or_none (resp : PyDict) (p : PyVal) (e : PyErr) :
    (lookupFirst resp pagingKey = Option.some p →
      pagingAfter p = Except.error e →
      get_offset_from_response resp = Except.error e)
    ∧ (get_offset_from_response resp = Except.ok (PyVal.none, PyVal.none) →
      lookupFirst resp pagingKey = Option.none
        ∧ lookupFirst resp offsetKey = Option.none) := by
  constructor
  · intro hp ha
    unfold pagingAfter at ha
    cases hn : getItem p nextKey with
    | error e1 =>
      rw [hn] at ha
      injection ha with he
      subst he
      simp [get_offset_from_response, hp, hn]
    | ok nx =>
      simp only [hn] at ha
      simp [get_offset_from_response, hp, hn, ha]
  · intro h
    cases hp : lookupFirst resp pagingKey with
    | some p1 =>
      cases hn : getItem p1 nextKey with
      | error e1 => simp [get_offset_from_response, hp, hn] at h
      | ok nx =>
        cases ha : getItem nx afterKey with
        | error e1 => simp [get_offset_from_response, hp, hn, ha] at h
        | ok af => simp [get_offset_from_response, hp, hn, ha] at h
    | none =>
      cases ho : lookupFirst resp offsetKey with
      | some v1 => simp [get_offset_from_response, hp, ho] at h
      | none => exact ⟨rfl, rfl⟩

/-- C10 witness: a body whose `paging` value is an empty mapping raises
`KeyError` out of the detector. -/
theorem C10_detector_raises_or_none_witness :
    get_offset_from_response [(pagingKey, PyVal.dict [])]
      = Except.error PyErr.keyError :=
  (C10_detector_raises_or_none [(pagingKey, PyVal.dict [])] (PyVal.dict [])
    PyErr.keyError).1 rfl rfl

/-- C5 counterexample: the claim's third clause says every body that has
neither a well-formed paging/next/after structure nor the only-offset
shape yields the None cursor; but this body, which holds a `paging` key
without the `next`/`after` shape (plus a perfectly usable top-level
`offset`), makes the detector raise `KeyError` instead of returning any
cursor. -/
theorem C5_counterexample_malformed_paging_raises :
    get_offset_from_response [(pagingKey, PyVal.dict []), (offsetKey, PyVal.int 25)]
      = Except.error PyErr.keyError := rfl

/-- C5 amended: for bodies holding a well-formed `paging.next.after`
structure the detector returns the after-style cursor, even when a
top-level `offset` field is also present; with no `paging` key but an
`offset` key it returns the offset-style cursor; with neither key it
returns the None cursor. (Bodies whose `paging` value lacks the
`next`/`after` shape raise instead of yielding the None cursor.) -/
theorem C5_detector_priority (resp : PyDict) (v : PyVal) :
    (∀ p, lookupFirst resp pagingKey = Option.some p →
      pagingAfter p = Except.ok v →
      get_offset_from_response resp = Except.ok (PyVal.str afterKey, v))
    ∧ (lookupFirst resp pagingKey = Option.none →
      lookupFirst resp offsetKey = Option.some v →
      get_offset_from_response resp = Except.ok (PyVal.str offsetKey, v))
    ∧ (lookupFirst resp pagingKey = Option.none →
      lookupFirst resp offsetKey = Option.none →
      get_offset_from_response resp = Except.ok (PyVal.none, PyVal.none)) := by
  refine ⟨?_, ?_, ?_⟩
  · intro p hp ha
    unfold pagingAfter at ha
    cases hn : getItem p nextKey with
    | error e1 => rw [hn] at ha; cases ha
    | ok nx =>
      simp only [hn] at ha
      simp [get_offset_from_response, hp, hn, ha]
  · intro hp ho
    simp [get_offset_from_response, hp, ho]
  · intro hp ho
    simp [get_offset_from_response, hp, ho]

/-- Pushing `format_filters` through `getLeaf`: the tree walk preserves
positions and keys and acts on each leaf by `convertLeaf`. -/
theorem getLeaf_format_filters (tzOffset : Int) (t : FilterTree) (gi pi li : Nat) :
    getLeaf (format_filters tzOffset t) gi pi li
      = (getLeaf t gi pi li).map (fun kv => (kv.fst, convertLeaf tzOffset kv.snd)) := by
  simp only [getLeaf, format_filters]
  rw [List.getElem?_map]
  cases t[gi]? with
  | none => rfl
  | some g =>
    simp only [Option.map_some', Option.some_bind, formatGroup]
    rw [List.getElem?_map]
    cases g[pi]? with
    | none => rfl
    | some p =>
      simp only [Option.map_some', Option.some_bind, formatPred]
      rw [List.getElem?_map]

/-- C3 counterexample: on a host whose local timezone sits 3600 seconds
east of UTC, the date leaf `2023-04-06` is rewritten to 1680735600000 —
the milliseconds of midnight local time — which is not 1680739200000,
the milliseconds since the Unix epoch at midnight UTC of that date that
the claim requires. -/
theorem C3_counterexample_local_not_utc :
    getLeaf (format_filters 3600 [[[(sampleField, PyVal.str utcSampleDateStr)]]]) 0 0 0
        = Option.some (sampleField, PyVal.int 1680735600000)
      ∧ (1680735600000 : Int) ≠ 1680739200000 := ⟨rfl, by decide⟩

/-- C3 amended: for every filter tree and every leaf position,
`format_filters` replaces the leaf with the integer count of
milliseconds since the Unix epoch at midnight LOCAL TIME of that date
(days-since-epoch times 86400 minus the host's UTC offset, times 1000;
equal to midnight UTC exactly when the host offset is zero) exactly when
the leaf parses as an ISO 8601 calendar date string, and leaves every
other leaf (integers, booleans, non-date strings, any non-string)
unchanged; parse failures are swallowed inside the leaf conversion and
never propagate, the walk being total. -/
theorem C3_normalize_leaf_action (tzOffset : Int) (t : FilterTree) :
    (∀ gi pi li k s y m d,
      getLeaf t gi pi li = Option.some (k, PyVal.str s) →
      date_fromisoformat s = Option.some (y, m, d) →
      getLeaf (format_filters tzOffset t) gi pi li
        = Option.some (k, PyVal.int ((daysFromCivil y m d * 86400 - tzOffset) * 1000)))
    ∧ (∀ gi pi li k v,
      getLeaf t gi pi li = Option.some (k, v) → notDateLeaf v = true →
      getLeaf (format_filters tzOffset t) gi pi li = Option.some (k, v)) := by
  constructor
  · intro gi pi li k s y m d h hparse
    rw [getLeaf_format_filters, h]
    simp [convertLeaf, date_to_unixtimestamp, hparse]
  · intro gi pi li k v h hnd
    rw [getLeaf_format_filters, h]
    cases v with
    | str s =>
      simp only [notDateLeaf, Option.isNone_iff_eq_none] at hnd
      simp [convertLeaf, date_to_unixtimestamp, hnd]
    | none => rfl
    | bool b => rfl
    | int n => rfl
    | list xs => rfl
    | dict kvs => rfl

/-- C3 witness: on a UTC host, the date leaf of `sampleTree` becomes the
epoch-milliseconds of 1970-01-02 and the integer leaf is untouched. -/
theorem C3_normalize_leaf_action_witness :
    getLeaf (format_filters 0 sampleTree) 0 0 0
        = Option.some (sampleField, PyVal.int 86400000)
      ∧ getLeaf (format_filters 0 sampleTree) 0 0 1
        = Option.some (sampleField, PyVal.int 42) :=
  ⟨(C3_normalize_leaf_action 0 sampleTree).1 0 0 0 sampleField sampleDateStr
      1970 1 2 rfl rfl,
    (C3_normalize_leaf_action 0 sampleTree).2 0 0 1 sampleField (PyVal.int 42) rfl rfl⟩

/-- A list map that moves some reachable element is not the identity on
that list. -/
theorem map_ne_self_of_getElem {α : Type} (f : α → α) (l : List α) (i : Nat) (x : α)
    (hx : l[i]? = Option.some x) (hne : f x ≠ x) : l.map f ≠ l := by
  intro h
  apply hne
  have h2 : (l.map f)[i]? = l[i]? := by rw [h]
  rw [List.getElem?_map, hx] at h2
  exact Option.some.inj h2

/-- A leaf accepted by `date.fromisoformat` is genuinely rewritten: the
converted integer differs from the original string. -/
theorem convertLeaf_ne_of_isDateLeaf (tzOffset : Int) (v : PyVal)
    (h : isDateLeaf v = true) : convertLeaf tzOffset v ≠ v := by
  cases v with
  | str s =>
    rw [isDateLeaf, Option.isSome_iff_exists] at h
    obtain ⟨⟨y, m, d⟩, hp⟩ := h
    simp [convertLeaf, date_to_unixtimestamp, hp]
  | none => simp [isDateLeaf] at h
  | bool b => simp [isDateLeaf] at h
  | int n => simp [isDateLeaf] at h
  | list xs => simp [isDateLeaf] at h
  | dict kvs => simp [isDateLeaf] at h

/-- C4 counterexample: calling `format_filters` on a tree holding a date
leaf leaves the caller's own tree object changed — the caller-held tree
after the call is not the tree that was passed in, because the source
wrote the converted leaf into it in place. -/
theorem C4_counterexample_caller_tree_changes :
    format_filters_caller_tree 0 [[[(sampleField, PyVal.str utcSampleDateStr)]]]
      ≠ [[[(sampleField, PyVal.str utcSampleDateStr)]]] := by
  intro h
  have h2 : Option.some (sampleField, PyVal.int 1680739200000)
      = Option.some (sampleField, PyVal.str utcSampleDateStr) :=
    congrArg (fun t => getLeaf t 0 0 0) h
  simp at h2

/-- C4 amended: `format_filters` updates the caller's tree in place:
after the call the caller-held tree is the returned normalized tree, and
it differs from the tree originally passed in whenever any leaf parses
as an ISO calendar date (only a tree with no convertible leaf survives
the call unchanged). -/
theorem C4_caller_tree_mutated (tzOffset : Int) (t : FilterTree)
    (h : hasDateLeaf t = true) : format_filters_caller_tree tzOffset t ≠ t := by
  unfold format_filters_caller_tree format_filters
  simp only [hasDateLeaf, List.any_eq_true] at h
  obtain ⟨g, hgmem, hg⟩ := h
  obtain ⟨p, hpmem, hp⟩ := hg
  obtain ⟨kv, hkvmem, hkv⟩ := hp
  obtain ⟨gi, hgi⟩ := List.getElem?_of_mem hgmem
  obtain ⟨pi, hpi⟩ := List.getElem?_of_mem hpmem
  obtain ⟨li, hli⟩ := List.getElem?_of_mem hkvmem
  apply map_ne_self_of_getElem (formatGroup tzOffset) t gi g hgi
  unfold formatGroup
  apply map_ne_self_of_getElem (formatPred tzOffset) g pi p hpi
  unfold formatPred
  apply map_ne_self_of_getElem _ p li kv hli
  obtain ⟨k, v⟩ := kv
  intro heq
  exact convertLeaf_ne_of_isDateLeaf tzOffset v hkv (congrArg Prod.snd heq)

/-- C4 witness: a concrete tree with a date leaf is mutated. -/
theorem C4_caller_tree_mutated_witness :
    format_filters_caller_tree 0 [[[(sampleField, PyVal.str sampleDateStr)]]]
      ≠ [[[(sampleField, PyVal.str sampleDateStr)]]] :=
  C4_caller_tree_mutated 0 [[[(sampleField, PyVal.str sampleDateStr)]]] rfl

/-- Converting a leaf twice is the same as converting it once: a
converted leaf is an integer, which `date.fromisoformat` rejects. -/
theorem convertLeaf_idem (tzOffset : Int) (v : PyVal) :
    convertLeaf tzOffset (convertLeaf tzOffset v) = convertLeaf tzOffset v := by
  cases v with
  | str s =>
    cases hp : date_to_unixtimestamp tzOffset s with
    | none => simp [convertLeaf, hp]
    | some ms => simp [convertLeaf, hp]
  | none => rfl
  | bool b => rfl
  | int n => rfl
  | list xs => rfl
  | dict kvs => rfl

/-- `formatPred` is idempotent on one predicate dict. -/
theorem formatPred_idem (tzOffset : Int) (p : FilterPred) :
    formatPred tzOffset (formatPred tzOffset p) = formatPred tzOffset p := by
  induction p with
  | nil => rfl
  | cons kv rest ih =>
    simp only [formatPred, List.map_cons] at *
    rw [convertLeaf_idem, ih]

/-- `formatGroup` is idempotent on one filter group. -/
theorem formatGroup_idem (tzOffset : Int) (g : FilterGroup) :
    formatGroup tzOffset (formatGroup tzOffset g) = formatGroup tzOffset g := by
  induction g with
  | nil => rfl
  | cons p rest ih =>
    simp only [formatGroup, List.map_cons] at *
    rw [formatPred_idem, ih]

/-- C8: `format_filters` is idempotent on every filter tree and host
timezone — re-normalizing an already-normalized tree changes nothing; in
particular an already-converted integer leaf is not altered, since
`date.fromisoformat` rejects non-strings. -/
theorem C8_format_filters_idempotent (tzOffset : Int) (t : FilterTree) :
    format_filters tzOffset (format_filters tzOffset t) = format_filters tzOffset t := by
  induction t with
  | nil => rfl
  | cons g rest ih =>
    simp only [format_filters, List.map_cons] at *
    rw [formatGroup_idem, ih]

/-- C5 witness: a body carrying both a well-formed paging/next/after
structure and a top-level offset resolves to the after-style cursor. -/
theorem C5_detector_priority_witness :
    get_offset_from_response
      [(pagingKey, PyVal.dict [(nextKey, PyVal.dict [(afterKey, PyVal.str sampleToken)])]),
        (offsetKey, PyVal.int 7)]
      = Except.ok (PyVal.str afterKey, PyVal.str sampleToken) :=
  (C5_detector_priority
    [(pagingKey, PyVal.dict [(nextKey, PyVal.dict [(afterKey, PyVal.str sampleToken)])]),
      (offsetKey, PyVal.int 7)]
    (PyVal.str sampleToken)).1
    (PyVal.dict [(nextKey, PyVal.dict [(afterKey, PyVal.str sampleToken)])]) rfl rfl

end HubspotToDF

namespace Mindful

/-- C6 counterexample: with `start_date` supplied, `end_date` absent and
`date_interval = 0` (an integer the claim ranges over), `__init__`
accepts the inputs without raising and produces a window whose start
equals its end, violating strict `start < end`. -/
theorem C6_counterexample_zero_interval :
    resolve_window 0 (Option.some 5) Option.none 0 = Except.ok (5, 5)
      ∧ ¬ ((5 : Int) < 5) := ⟨rfl, by decide⟩

/-- C6 amended: every accepted combination of caller inputs yields a
window with `start < end` strictly, provided `date_interval ≥ 1`
whenever an absent bound makes `__init__` infer `end` from the interval;
with `date_interval ≤ 0` an inferred window with `start ≥ end` is
accepted unrejected. (When both bounds are supplied the code path does
reject `start ≥ end` for every interval.) -/
theorem C6_window_strict_of_pos_interval (now : Int) (s e : Option Int)
    (d a b : Int) (hd : 1 ≤ d)
    (h : resolve_window now s e d = Except.ok (a, b)) : a < b := by
  have h86400 : (86400 : Int) ≤ d * 86400 := by nlinarith
  cases s with
  | none =>
    simp only [resolve_window, Except.ok.injEq, Prod.mk.injEq] at h
    omega
  | some sv =>
    cases e with
    | none =>
      simp only [resolve_window, Except.ok.injEq, Prod.mk.injEq] at h
      omega
    | some ev =>
      simp only [resolve_window] at h
      by_cases hle : ev ≤ sv
      · rw [if_pos hle] at h; cases h
      · rw [if_neg hle] at h
        simp only [Except.ok.injEq, Prod.mk.injEq] at h
        omega

/-- C6 witness: the default inputs (no bounds, interval one day) pass
through the amended invariant. -/
theorem C6_window_strict_witness : (0 : Int) < 86400 :=
  C6_window_strict_of_pos_interval 0 Option.none Option.none 1 0 86400
    (by decide) rfl

/-- C7 counterexample: with both bounds supplied and `start >= end`,
`__init__` raises the built-in `ValueError` of line 79, not viadot's
`ValidationError` class that the claim names. -/
theorem C7_counterexample_valueerror_class :
    resolve_window 0 (Option.some 1) (Option.some 0) 1
        = Except.error PyErr.valueError
      ∧ PyErr.valueError ≠ PyErr.validationError := ⟨rfl, by decide⟩

/-- C7 amended: when both `start_date` and `end_date` are supplied and
`start_date >= end_date`, `__init__` fails with the built-in
`ValueError` (not viadot's `ValidationError`), and it does so inside the
constructor, before any request is issued. -/
theorem C7_rejects_reversed_window (now s e d : Int) (h : e ≤ s) :
    resolve_window now (Option.some s) (Option.some e) d
      = Except.error PyErr.valueError := by
  simp only [resolve_window]
  rw [if_pos h]

/-- C7 witness: equal bounds are rejected with `ValueError`. -/
theorem C7_rejects_reversed_window_witness :
    resolve_window 0 (Option.some 1) (Option.some 1) 3
      = Except.error PyErr.valueError :=
  C7_rejects_reversed_window 0 1 1 3 (by decide)

end Mindful

end Viadot
